import Mathlib

/-!
Verification of the provisioning resolution and polling engine of the
terraform-provider-ics repository (Go). Pure Go functions are embedded as
Lean functions over the same data; HTTP calls are replaced by explicit
snapshot parameters (the list the backend would have returned), and the
Terraform plugin-framework nullable values are embedded as `Option`.
-/

namespace ICS

/-- InventoryItem embeds the Go struct `InventoryItem` (client.go).
Hardware/pricing descriptor fields (CPU model strings, float clock speed,
price strings, metadata list) are never read by the functions verified here
and are omitted; the fields below are the ones the resolver and the
lifecycle controller inspect. -/
structure InventoryItem where
  skuID : Int
  quantity : Int
  autoProvisionQuantity : Int
  datacenterID : Int
  regionID : Int
  locationCode : String
  skuProductName : String
  status : String
deriving DecidableEq, Repr

/-- Server embeds the Go struct `Server` (client.go), all fields. -/
structure Server where
  id : String
  hostname : String
  macAddress : String
  publicIP : String
  serviceID : Int
  serviceDescription : String
  planID : Int
  datacenterName : String
  datacenterID : Int
  locationID : Int
  friendlyName : String
  vendor : String
  serverType : String
  billHourly : Bool
  rootPassword : String
deriving DecidableEq, Repr

/-- AssignedServer embeds the Go struct `AssignedServer` (client.go). -/
structure AssignedServer where
  serverID : String
  serviceID : Int
  hostname : String
  datacenterName : String
deriving DecidableEq, Repr

/-- SSHKey embeds the Go struct `SSHKey` (client.go). -/
structure SSHKey where
  id : Int
  label : String
  key : String
  createdAt : Int
  updatedAt : Int
  assignedServers : List AssignedServer
deriving DecidableEq, Repr

/-- OperatingSystemItem embeds the Go struct `OperatingSystemItem`
(client.go); the float price fields are never read by the verified code and
are omitted. -/
structure OperatingSystemItem where
  name : String
  osType : String
  productCode : String
  hourlyEnabled : Bool
deriving DecidableEq, Repr

/-- OperatingSystemsAddon embeds the Go struct `OperatingSystemsAddon`. -/
structure OperatingSystemsAddon where
  name : String
  required : String
  products : List OperatingSystemItem
deriving DecidableEq, Repr

/-- LicenseItem embeds the Go struct `LicenseItem` (float prices omitted). -/
structure LicenseItem where
  name : String
  productCode : String
  hourlyEnabled : Bool
deriving DecidableEq, Repr

/-- LicensesAddon embeds the Go struct `LicensesAddon`. -/
structure LicensesAddon where
  name : String
  products : List LicenseItem
deriving DecidableEq, Repr

/-- SupportItem embeds the Go struct `SupportItem` (float prices omitted). -/
structure SupportItem where
  name : String
  description : String
  productCode : String
  hourlyEnabled : Bool
deriving DecidableEq, Repr

/-- SupportLevelsAddon embeds the Go struct `SupportLevelsAddon`. -/
structure SupportLevelsAddon where
  name : String
  products : List SupportItem
deriving DecidableEq, Repr

/-- AddonsResponse embeds the Go struct `AddonsResponse` (client.go). -/
structure AddonsResponse where
  operatingSystems : OperatingSystemsAddon
  licenses : LicensesAddon
  supportLevels : SupportLevelsAddon
deriving DecidableEq, Repr

/-- ServerOrderRequest embeds the Go struct `ServerOrderRequest` (client.go).
The Go `omitempty` optional fields keep their zero values ("" / empty list)
when unset, exactly as in Go. -/
structure ServerOrderRequest where
  skuProductName : String
  quantity : Int
  locationCode : String
  operatingSystemProductCode : String
  hostname : String
  billHourly : Bool
  sshKeyIDs : List Int
deriving DecidableEq, Repr

/-- ServerOrderResponse embeds the Go struct `ServerOrderResponse`. -/
structure ServerOrderResponse where
  orderServiceIDs : List Int
deriving DecidableEq, Repr

/-- SSHKeyCreateResponse embeds the Go struct `SSHKeyCreateResponse`. -/
structure SSHKeyCreateResponse where
  id : Int
deriving DecidableEq, Repr

/-- The error returned by `FindSKUByProductName` (client.go lines 427-430).
The Go code formats one of two message templates; this type records which
template was chosen together with the values interpolated into it. -/
inductive SKUFindError where
  | notFoundInLocation (productName locationCode : String)
  | notFound (productName : String)
deriving DecidableEq, Repr

/-- The scan loop of `FindSKUByProductName` (client.go lines 414-425): walk
the inventory snapshot in order; on a product-name match, skip the entry if a
location code was requested and differs, return the entry if its
auto-provision quantity is positive, otherwise keep scanning. -/
def findSKUInInventory : List InventoryItem → String → String → Option InventoryItem
  | [], _, _ => none
  | item :: rest, productName, locationCode =>
    if item.skuProductName == productName then
      if locationCode != "" && item.locationCode != locationCode then
        findSKUInInventory rest productName locationCode
      else if item.autoProvisionQuantity > 0 then
        some item
      else
        findSKUInInventory rest productName locationCode
    else
      findSKUInInventory rest productName locationCode

/-- `FindSKUByProductName` (client.go lines 408-431) with the inventory
snapshot that `GetInventory` would have fetched passed in explicitly. -/
def FindSKUByProductName (inventory : List InventoryItem)
    (productName locationCode : String) : Except SKUFindError InventoryItem :=
  match findSKUInInventory inventory productName locationCode with
  | some item => .ok item
  | none =>
    if locationCode != "" then
      .error (.notFoundInLocation productName locationCode)
    else
      .error (.notFound productName)

/-- The qualifying condition exactly as the spec sentence states it: product
name equal to the requested type, location code equal to the requested one or
the request empty, and auto-provisionable quantity strictly positive. Stated
from the spec so that the scan loop above can be compared against it. -/
def skuQualifiesSpec (productName locationCode : String) (item : InventoryItem) : Bool :=
  item.skuProductName == productName
    && (locationCode == "" || item.locationCode == locationCode)
    && decide (0 < item.autoProvisionQuantity)

theorem findSKUInInventory_cons (item : InventoryItem) (rest : List InventoryItem)
    (productName locationCode : String) :
    findSKUInInventory (item :: rest) productName locationCode =
      if skuQualifiesSpec productName locationCode item then some item
      else findSKUInInventory rest productName locationCode := by
  simp only [findSKUInInventory, skuQualifiesSpec, bne, gt_iff_lt]
  by_cases hn : (item.skuProductName == productName) = true <;>
    by_cases hl : (locationCode == "") = true <;>
      by_cases hc : (item.locationCode == locationCode) = true <;>
        by_cases hq : (0 : Int) < item.autoProvisionQuantity <;>
          simp [hn, hl, hc, hq]

theorem findSKUInInventory_eq_some_iff (inventory : List InventoryItem)
    (productName locationCode : String) (item : InventoryItem) :
    findSKUInInventory inventory productName locationCode = some item ↔
      ∃ pre post, inventory = pre ++ item :: post ∧
        skuQualifiesSpec productName locationCode item = true ∧
        ∀ x ∈ pre, skuQualifiesSpec productName locationCode x = false := by
  induction inventory with
  | nil =>
    simp [findSKUInInventory]
  | cons a rest ih =>
    rw [findSKUInInventory_cons]
    by_cases h : skuQualifiesSpec productName locationCode a
    · simp only [h, if_pos]
      constructor
      · intro he
        refine ⟨[], rest, ?_, ?_, ?_⟩ <;> simp_all
      · rintro ⟨pre, post, heq, hm, hpre⟩
        cases pre with
        | nil => simp at heq; simp [heq.1]
        | cons x xs =>
          have hx : a = x := by simpa using congrArg (fun l => l.head?) heq
          have := hpre x (by simp)
          rw [← hx, h] at this
          cases this
    · simp only [h, if_neg, Bool.false_eq_true, not_false_iff, ite_false]
      rw [ih]
      constructor
      · rintro ⟨pre, post, heq, hm, hpre⟩
        refine ⟨a :: pre, post, by simp [heq], hm, ?_⟩
        intro x hx
        rcases List.mem_cons.mp hx with hx | hx
        · subst hx; simpa using h
        · exact hpre x hx
      · rintro ⟨pre, post, heq, hm, hpre⟩
        cases pre with
        | nil =>
          simp at heq
          rw [← heq.1] at hm
          exact absurd hm h
        | cons x xs =>
          have htl : rest = xs ++ item :: post := by
            simpa using congrArg (fun l => l.tail) heq
          exact ⟨xs, post, htl, hm, fun y hy => hpre y (by simp [hy])⟩

theorem findSKUInInventory_eq_none_iff (inventory : List InventoryItem)
    (productName locationCode : String) :
    findSKUInInventory inventory productName locationCode = none ↔
      ∀ item ∈ inventory, skuQualifiesSpec productName locationCode item = false := by
  induction inventory with
  | nil => simp [findSKUInInventory]
  | cons a rest ih =>
    rw [findSKUInInventory_cons]
    by_cases h : skuQualifiesSpec productName locationCode a <;> simp_all

/-- C1: FindSKUByProductName returns an inventory item iff some entry of the
snapshot has product name equal to the requested type, location code equal to
the requested one or the request empty, and auto-provisionable quantity
strictly greater than 0; when such entries exist it returns the first
qualifying entry in snapshot order, and otherwise it returns an error. -/
theorem findSKU_first_qualifying_iff (inventory : List InventoryItem)
    (productName locationCode : String) :
    (∀ item, FindSKUByProductName inventory productName locationCode = .ok item ↔
      ∃ pre post, inventory = pre ++ item :: post ∧
        skuQualifiesSpec productName locationCode item = true ∧
        ∀ x ∈ pre, skuQualifiesSpec productName locationCode x = false)
    ∧ ((∃ e, FindSKUByProductName inventory productName locationCode = .error e) ↔
      ∀ item ∈ inventory, skuQualifiesSpec productName locationCode item = false) := by
  constructor
  · intro item
    rw [← findSKUInInventory_eq_some_iff]
    unfold FindSKUByProductName
    cases h : findSKUInInventory inventory productName locationCode with
    | none =>
      constructor
      · intro hc
        by_cases hl : (locationCode != "") = true <;> simp [hl] at hc
      · intro hc; cases hc
    | some x => simp
  · rw [← findSKUInInventory_eq_none_iff]
    unfold FindSKUByProductName
    cases h : findSKUInInventory inventory productName locationCode with
    | none =>
      constructor
      · intro _; rfl
      · intro _
        by_cases hl : (locationCode != "") = true
        · exact ⟨SKUFindError.notFoundInLocation productName locationCode, by simp [hl]⟩
        · exact ⟨SKUFindError.notFound productName, by simp [hl]⟩
    | some x =>
      constructor
      · rintro ⟨e, he⟩; cases he
      · intro hc; cases hc

/-- Witness for C1 at a concrete snapshot: the second entry is the first
qualifying one for ("c1.small", "NYC1") because the first entry fails the
quantity filter. -/
theorem findSKU_first_qualifying_iff_witness :
    ∃ pre post,
      [InventoryItem.mk 1 0 0 7 1 "NYC1" "c1.small" "In Stock",
       InventoryItem.mk 2 4 3 7 1 "NYC1" "c1.small" "In Stock"] =
        pre ++ (InventoryItem.mk 2 4 3 7 1 "NYC1" "c1.small" "In Stock") :: post ∧
      skuQualifiesSpec "c1.small" "NYC1"
        (InventoryItem.mk 2 4 3 7 1 "NYC1" "c1.small" "In Stock") = true ∧
      ∀ x ∈ pre, skuQualifiesSpec "c1.small" "NYC1" x = false :=
  ((findSKU_first_qualifying_iff
      [InventoryItem.mk 1 0 0 7 1 "NYC1" "c1.small" "In Stock",
       InventoryItem.mk 2 4 3 7 1 "NYC1" "c1.small" "In Stock"]
      "c1.small" "NYC1").1
    (InventoryItem.mk 2 4 3 7 1 "NYC1" "c1.small" "In Stock")).mp rfl

/-- C5 counterexample: the error returned by FindSKUByProductName is the same
for a snapshot containing no entry with the requested name (the empty
snapshot) and for a snapshot containing an entry with that name that merely
fails the location/quantity filter, so the error cannot distinguish the two
cases the claim requires it to. -/
theorem findSKU_error_same_for_both_cases :
    FindSKUByProductName [] "c1.small" "ORD1" =
      FindSKUByProductName [InventoryItem.mk 3 5 0 9 2 "ORD1" "c1.small" "In Stock"]
        "c1.small" "ORD1"
    ∧ (InventoryItem.mk 3 5 0 9 2 "ORD1" "c1.small" "In Stock").skuProductName = "c1.small"
    ∧ FindSKUByProductName [] "c1.small" "ORD1" =
        .error (.notFoundInLocation "c1.small" "ORD1") :=
  ⟨rfl, rfl, rfl⟩

/-- C5 (amended): when SKU resolution fails, the returned error records the
requested product name and whether a location code was supplied (carrying the
location when so); it does not record whether an entry with the requested
name exists. -/
theorem findSKU_error_shape (inventory : List InventoryItem)
    (productName locationCode : String) (e : SKUFindError)
    (h : FindSKUByProductName inventory productName locationCode = .error e) :
    e = if locationCode ≠ "" then .notFoundInLocation productName locationCode
        else .notFound productName := by
  unfold FindSKUByProductName at h
  cases hf : findSKUInInventory inventory productName locationCode <;> rw [hf] at h
  · by_cases hl : locationCode = ""
    · subst hl
      simp at h ⊢
      exact h.symm
    · simp [hl] at h ⊢
      exact h.symm
  · simp at h

/-- Witness for the amended C5 at a concrete failing resolution. -/
theorem findSKU_error_shape_witness :
    SKUFindError.notFoundInLocation "c1.small" "ORD1" =
      if "ORD1" ≠ "" then SKUFindError.notFoundInLocation "c1.small" "ORD1"
      else SKUFindError.notFound "c1.small" :=
  findSKU_error_shape [] "c1.small" "ORD1"
    (SKUFindError.notFoundInLocation "c1.small" "ORD1") rfl

/-- Alternatives collects the three suggestion lists that
`BareMetalServerResource.Create` builds when SKU resolution fails
(part_003 lines 202-219); the Go `typeLocationMap` is embedded as the list
of (type, location) pairs appended to it. -/
structure Alternatives where
  availableTypes : List String
  availableLocations : List String
  typeLocationPairs : List (String × String)
deriving DecidableEq, Repr

/-- The suggestion-list loop of `BareMetalServerResource.Create` (part_003
lines 206-219): for each inventory entry with positive auto-provision
quantity, its location is recorded when the entry carries the requested type,
its type is recorded when the entry sits in the requested location, and the
(type, location) pair is always recorded. -/
def findAvailableAlternatives (inventory : List InventoryItem)
    (instanceType location : String) : Alternatives :=
  match inventory with
  | [] => ⟨[], [], []⟩
  | item :: rest =>
    let tail := findAvailableAlternatives rest instanceType location
    if item.autoProvisionQuantity > 0 then
      ⟨(if item.locationCode == location then [item.skuProductName] else [])
          ++ tail.availableTypes,
       (if item.skuProductName == instanceType then [item.locationCode] else [])
          ++ tail.availableLocations,
       (item.skuProductName, item.locationCode) :: tail.typeLocationPairs⟩
    else
      tail

theorem mem_availableLocations_sound (inventory : List InventoryItem)
    (instanceType location loc : String) :
    loc ∈ (findAvailableAlternatives inventory instanceType location).availableLocations →
    ∃ item ∈ inventory, item.skuProductName = instanceType ∧ item.locationCode = loc ∧
      0 < item.autoProvisionQuantity := by
  induction inventory with
  | nil => simp [findAvailableAlternatives]
  | cons a rest ih =>
    simp only [findAvailableAlternatives]
    by_cases hq : a.autoProvisionQuantity > 0
    · simp only [hq, if_pos]
      intro hmem
      rcases List.mem_append.mp hmem with hmem | hmem
      · by_cases hn : (a.skuProductName == instanceType) = true
        · simp [hn] at hmem
          exact ⟨a, by simp, by simpa using hn, hmem.symm, hq⟩
        · simp [hn] at hmem
      · rcases ih hmem with ⟨item, hm, h1, h2, h3⟩
        exact ⟨item, by simp [hm], h1, h2, h3⟩
    · simp only [hq, if_neg, not_false_iff]
      intro hmem
      rcases ih hmem with ⟨item, hm, h1, h2, h3⟩
      exact ⟨item, by simp [hm], h1, h2, h3⟩

theorem mem_availableTypes_sound (inventory : List InventoryItem)
    (instanceType location ty : String) :
    ty ∈ (findAvailableAlternatives inventory instanceType location).availableTypes →
    ∃ item ∈ inventory, item.skuProductName = ty ∧ item.locationCode = location ∧
      0 < item.autoProvisionQuantity := by
  induction inventory with
  | nil => simp [findAvailableAlternatives]
  | cons a rest ih =>
    simp only [findAvailableAlternatives]
    by_cases hq : a.autoProvisionQuantity > 0
    · simp only [hq, if_pos]
      intro hmem
      rcases List.mem_append.mp hmem with hmem | hmem
      · by_cases hn : (a.locationCode == location) = true
        · simp [hn] at hmem
          exact ⟨a, by simp, hmem.symm, by simpa using hn, hq⟩
        · simp [hn] at hmem
      · rcases ih hmem with ⟨item, hm, h1, h2, h3⟩
        exact ⟨item, by simp [hm], h1, h2, h3⟩
    · simp only [hq, if_neg, not_false_iff]
      intro hmem
      rcases ih hmem with ⟨item, hm, h1, h2, h3⟩
      exact ⟨item, by simp [hm], h1, h2, h3⟩

theorem mem_typeLocationPairs_sound (inventory : List InventoryItem)
    (instanceType location : String) (p : String × String) :
    p ∈ (findAvailableAlternatives inventory instanceType location).typeLocationPairs →
    ∃ item ∈ inventory, item.skuProductName = p.1 ∧ item.locationCode = p.2 ∧
      0 < item.autoProvisionQuantity := by
  induction inventory with
  | nil => simp [findAvailableAlternatives]
  | cons a rest ih =>
    simp only [findAvailableAlternatives]
    by_cases hq : a.autoProvisionQuantity > 0
    · simp only [hq, if_pos]
      intro hmem
      rcases List.mem_cons.mp hmem with hmem | hmem
      · subst hmem
        exact ⟨a, by simp, rfl, rfl, hq⟩
      · rcases ih hmem with ⟨item, hm, h1, h2, h3⟩
        exact ⟨item, by simp [hm], h1, h2, h3⟩
    · simp only [hq, if_neg, not_false_iff]
      intro hmem
      rcases ih hmem with ⟨item, hm, h1, h2, h3⟩
      exact ⟨item, by simp [hm], h1, h2, h3⟩

/-- The inventory snapshot of the spec's example scenario for failed
resolution with suggestions. -/
def sampleInventory : List InventoryItem :=
  [InventoryItem.mk 10 3 3 1 1 "NYC1" "c1.small" "In Stock",
   InventoryItem.mk 11 1 0 2 1 "ORD1" "c1.small" "In Stock"]

/-- C6: the suggestion lists built by Create on failed SKU resolution contain
only type/location pairs that appear in the inventory snapshot with positive
auto-provisionable quantity; and on the spec's example snapshot, resolving
("c1.small", "ORD1") fails while NYC1 is listed as an available location for
c1.small. -/
theorem create_alternatives_sound :
    (∀ (inventory : List InventoryItem) (instanceType location loc : String),
      loc ∈ (findAvailableAlternatives inventory instanceType location).availableLocations →
      ∃ item ∈ inventory, item.skuProductName = instanceType ∧ item.locationCode = loc ∧
        0 < item.autoProvisionQuantity)
    ∧ (∀ (inventory : List InventoryItem) (instanceType location ty : String),
      ty ∈ (findAvailableAlternatives inventory instanceType location).availableTypes →
      ∃ item ∈ inventory, item.skuProductName = ty ∧ item.locationCode = location ∧
        0 < item.autoProvisionQuantity)
    ∧ (∀ (inventory : List InventoryItem) (instanceType location : String)
        (p : String × String),
      p ∈ (findAvailableAlternatives inventory instanceType location).typeLocationPairs →
      ∃ item ∈ inventory, item.skuProductName = p.1 ∧ item.locationCode = p.2 ∧
        0 < item.autoProvisionQuantity)
    ∧ FindSKUByProductName sampleInventory "c1.small" "ORD1" =
        .error (.notFoundInLocation "c1.small" "ORD1")
    ∧ "NYC1" ∈ (findAvailableAlternatives sampleInventory "c1.small" "ORD1").availableLocations :=
  ⟨mem_availableLocations_sound, mem_availableTypes_sound, mem_typeLocationPairs_sound,
   rfl, by decide⟩

/-- Witness for C6 at the spec's example snapshot: NYC1 is listed for
c1.small only because the snapshot really offers c1.small at NYC1 with
positive quantity. -/
theorem create_alternatives_sound_witness :
    ∃ item ∈ sampleInventory, item.skuProductName = "c1.small" ∧
      item.locationCode = "NYC1" ∧ 0 < item.autoProvisionQuantity :=
  create_alternatives_sound.1 sampleInventory "c1.small" "ORD1" "NYC1" (by decide)

/-- GetServerByServiceID (client.go lines 334-347) with the server list that
`GetServers` would have fetched passed in explicitly: the first entry whose
service identifier equals the target, or none. -/
def GetServerByServiceID : List Server → Int → Option Server
  | [], _ => none
  | server :: rest, serviceID =>
    if server.serviceID == serviceID then some server
    else GetServerByServiceID rest serviceID

/-- Outcome of one run of the provisioning wait loop. -/
inductive PollOutcome where
  | provisioned (server : Server)
  | cancelled
  | timedOut
deriving DecidableEq, Repr

/-- A run of the wait loop together with the number of server-list queries it
issued. -/
structure PollRun where
  outcome : PollOutcome
  queriesIssued : Nat
deriving DecidableEq, Repr

/-- The fixed sleep of the wait loop: `time.Sleep(30 * time.Second)`
(part_003 line 534), measured in seconds. -/
def pollSleepSeconds : Nat := 30

/-- The loop of `waitForServerProvisioning` (part_003 lines 516-535). Wall
time is in seconds; `poll k` is the result of the k-th
`GetServerByServiceID` call (`none` covers both "not found" and a transport
error, which the Go loop treats identically); `cancelledAt k` tells whether
the context is already cancelled when iteration k runs its ctx.Done()
check. Each not-found iteration sleeps `pollSleepSeconds` before the next
deadline test. -/
def waitLoop (poll : Nat → Option Server) (cancelledAt : Nat → Bool)
    (deadline now k : Nat) : PollRun :=
  if h : now < deadline then
    if cancelledAt k then
      ⟨.cancelled, 0⟩
    else
      match poll k with
      | some server => ⟨.provisioned server, 1⟩
      | none =>
        let rest := waitLoop poll cancelledAt deadline (now + pollSleepSeconds) (k + 1)
        ⟨rest.outcome, rest.queriesIssued + 1⟩
  else
    ⟨.timedOut, 0⟩
termination_by deadline - now
decreasing_by simp_wf; simp only [pollSleepSeconds]; omega

/-- `waitForServerProvisioning` (part_003 lines 512-538): the deadline is the
current time plus the timeout, and polling starts at iteration 0. -/
def waitForServerProvisioning (poll : Nat → Option Server)
    (cancelledAt : Nat → Bool) (startTime timeoutSeconds : Nat) : PollRun :=
  waitLoop poll cancelledAt (startTime + timeoutSeconds) startTime 0

theorem waitLoop_timedOut (poll : Nat → Option Server) (cancelledAt : Nat → Bool)
    (deadline now k : Nat) (h : ¬ now < deadline) :
    waitLoop poll cancelledAt deadline now k = ⟨.timedOut, 0⟩ := by
  unfold waitLoop
  simp [h]

theorem waitLoop_cancelled_step (poll : Nat → Option Server)
    (cancelledAt : Nat → Bool) (deadline now k : Nat)
    (h : now < deadline) (hc : cancelledAt k = true) :
    waitLoop poll cancelledAt deadline now k = ⟨.cancelled, 0⟩ := by
  unfold waitLoop
  simp [h, hc]

theorem waitLoop_found (poll : Nat → Option Server) (cancelledAt : Nat → Bool)
    (deadline now k : Nat) (server : Server)
    (h : now < deadline) (hc : cancelledAt k = false) (hp : poll k = some server) :
    waitLoop poll cancelledAt deadline now k = ⟨.provisioned server, 1⟩ := by
  unfold waitLoop
  simp [h, hc, hp]

theorem waitLoop_retry (poll : Nat → Option Server) (cancelledAt : Nat → Bool)
    (deadline now k : Nat)
    (h : now < deadline) (hc : cancelledAt k = false) (hp : poll k = none) :
    waitLoop poll cancelledAt deadline now k =
      ⟨(waitLoop poll cancelledAt deadline (now + pollSleepSeconds) (k + 1)).outcome,
       (waitLoop poll cancelledAt deadline (now + pollSleepSeconds) (k + 1)).queriesIssued + 1⟩ := by
  conv_lhs => unfold waitLoop
  simp [h, hc, hp]

/-- C2: with a deadline that has already elapsed (no remaining timeout) and
no matching server present, the wait returns the timeout outcome and issues
no more than one query; the deadline test precedes the first query, so in
fact none is issued. -/
theorem await_elapsed_deadline_times_out (poll : Nat → Option Server)
    (cancelledAt : Nat → Bool) (startTime : Nat)
    (hnone : ∀ k, poll k = none) :
    (waitForServerProvisioning poll cancelledAt startTime 0).outcome = .timedOut
    ∧ (waitForServerProvisioning poll cancelledAt startTime 0).queriesIssued ≤ 1 := by
  unfold waitForServerProvisioning
  rw [waitLoop_timedOut poll cancelledAt (startTime + 0) startTime 0 (by omega)]
  exact ⟨rfl, by simp⟩

/-- Witness for C2 at a concrete elapsed-deadline run. -/
theorem await_elapsed_deadline_times_out_witness :
    (waitForServerProvisioning (fun _ => none) (fun _ => false) 100 0).outcome = .timedOut
    ∧ (waitForServerProvisioning (fun _ => none) (fun _ => false) 100 0).queriesIssued ≤ 1 :=
  await_elapsed_deadline_times_out (fun _ => none) (fun _ => false) 100 (fun _ => rfl)

theorem waitLoop_cancel_false_of_lt_queries (poll : Nat → Option Server)
    (cancelledAt : Nat → Bool) (deadline : Nat) :
    ∀ fuel now k, deadline ≤ now + fuel →
      ∀ j, j < (waitLoop poll cancelledAt deadline now k).queriesIssued →
        cancelledAt (k + j) = false := by
  intro fuel
  induction fuel with
  | zero =>
    intro now k hle j hj
    rw [waitLoop_timedOut poll cancelledAt deadline now k (by omega)] at hj
    simp at hj
  | succ n ih =>
    intro now k hle j hj
    by_cases h : now < deadline
    · by_cases hc : cancelledAt k = true
      · rw [waitLoop_cancelled_step poll cancelledAt deadline now k h hc] at hj
        simp at hj
      · have hc2 : cancelledAt k = false := by simpa using hc
        cases hp : poll k with
        | some s =>
          rw [waitLoop_found poll cancelledAt deadline now k s h hc2 hp] at hj
          have hj0 : j = 0 := by simpa using Nat.lt_one_iff.mp hj
          subst hj0
          simpa using hc2
        | none =>
          rw [waitLoop_retry poll cancelledAt deadline now k h hc2 hp] at hj
          cases j with
          | zero => simpa using hc2
          | succ m =>
            have hrec := ih (now + pollSleepSeconds) (k + 1)
              (by simp only [pollSleepSeconds]; omega) m (by simpa using Nat.lt_of_succ_lt_succ hj)
            have harr : k + (m + 1) = k + 1 + m := by omega
            rw [harr]
            exact hrec
    · rw [waitLoop_timedOut poll cancelledAt deadline now k h] at hj
      simp at hj

/-- C3: if the cancellation signal is already set when a poll tick begins
(the wall clock still being before the deadline), the loop aborts with the
cancellation outcome, issuing no query at or after that point; and the
cancellation flag was false at every iteration whose query was actually
issued, i.e. cancellation is checked before every query. -/
theorem await_cancellation_checked_before_every_query :
    (∀ (poll : Nat → Option Server) (cancelledAt : Nat → Bool) (deadline now k : Nat),
      now < deadline → cancelledAt k = true →
      waitLoop poll cancelledAt deadline now k = ⟨.cancelled, 0⟩)
    ∧ (∀ (poll : Nat → Option Server) (cancelledAt : Nat → Bool)
        (startTime timeoutSeconds j : Nat),
      j < (waitForServerProvisioning poll cancelledAt startTime timeoutSeconds).queriesIssued →
      cancelledAt j = false) := by
  constructor
  · intro poll cancelledAt deadline now k h hc
    exact waitLoop_cancelled_step poll cancelledAt deadline now k h hc
  · intro poll cancelledAt startTime timeoutSeconds j hj
    have := waitLoop_cancel_false_of_lt_queries poll cancelledAt
      (startTime + timeoutSeconds) timeoutSeconds startTime 0 (by omega) j hj
    simpa using this

/-- Witness for C3: a signal set at tick 0 with time remaining yields the
cancellation outcome and zero queries. -/
theorem await_cancellation_checked_before_every_query_witness :
    waitLoop (fun _ => none) (fun _ => true) 10 0 0 = ⟨.cancelled, 0⟩ :=
  await_cancellation_checked_before_every_query.1 (fun _ => none) (fun _ => true)
    10 0 0 (by omega) rfl

theorem waitLoop_found_after_not_found (poll : Nat → Option Server)
    (deadline : Nat) (s : Server) :
    ∀ N now k,
      (∀ j, j < N → poll (k + j) = none) →
      poll (k + N) = some s →
      now + pollSleepSeconds * N < deadline →
      waitLoop poll (fun _ => false) deadline now k = ⟨.provisioned s, N + 1⟩ := by
  intro N
  induction N with
  | zero =>
    intro now k hnone hfound hd
    exact waitLoop_found poll (fun _ => false) deadline now k s
      (by simp only [pollSleepSeconds] at hd; omega) rfl (by simpa using hfound)
  | succ n ih =>
    intro now k hnone hfound hd
    have h0 : poll k = none := by simpa using hnone 0 (by omega)
    have hlt : now < deadline := by
      simp only [pollSleepSeconds] at hd; omega
    rw [waitLoop_retry poll (fun _ => false) deadline now k hlt rfl h0]
    have hrec := ih (now + pollSleepSeconds) (k + 1)
      (fun j hj => by
        have := hnone (j + 1) (by omega)
        have harr : k + (j + 1) = k + 1 + j := by omega
        rw [harr] at this
        exact this)
      (by
        have harr : k + (n + 1) = k + 1 + n := by omega
        rw [harr] at hfound
        exact hfound)
      (by simp only [pollSleepSeconds] at hd ⊢; omega)
    rw [hrec]

/-- C4: a run in which N consecutive queries find no entry with the target
service identifier, after which the server list is the steady list containing
one, returns the same Server value as a run whose very first query sees the
steady list, given a deadline with sufficient margin. -/
theorem await_idempotent_under_not_found (snapshots : Nat → List Server)
    (steady : List Server) (serviceID : Int) (s : Server)
    (N startTime timeoutSeconds : Nat)
    (hnotyet : ∀ i, i < N → GetServerByServiceID (snapshots i) serviceID = none)
    (hsteady : ∀ i, N ≤ i → snapshots i = steady)
    (hfound : GetServerByServiceID steady serviceID = some s)
    (hmargin : pollSleepSeconds * N < timeoutSeconds) :
    (waitForServerProvisioning (fun i => GetServerByServiceID (snapshots i) serviceID)
        (fun _ => false) startTime timeoutSeconds).outcome = .provisioned s
    ∧ (waitForServerProvisioning (fun _ => GetServerByServiceID steady serviceID)
        (fun _ => false) startTime timeoutSeconds).outcome = .provisioned s := by
  constructor
  · unfold waitForServerProvisioning
    rw [waitLoop_found_after_not_found
      (fun i => GetServerByServiceID (snapshots i) serviceID)
      (startTime + timeoutSeconds) s N startTime 0
      (fun j hj => by simpa using hnotyet j hj)
      (by simpa [hsteady N (le_refl N)] using hfound)
      (by omega)]
  · unfold waitForServerProvisioning
    rw [waitLoop_found_after_not_found
      (fun _ => GetServerByServiceID steady serviceID)
      (startTime + timeoutSeconds) s 0 startTime 0
      (fun j hj => by omega)
      (by simpa using hfound)
      (by simp only [pollSleepSeconds] at hmargin ⊢; omega)]

/-- The server of the spec's example scenario: service identifier 500. -/
def sampleServer : Server :=
  ⟨"srv-1", "web-1", "aa:bb:cc:dd:ee:ff", "203.0.113.5", 500, "c1.small NYC1", 7,
   "NYC1", 1, 2, "", "ICS", "bare_metal", true, "secret"⟩

/-- Witness for C4: the spec scenario with service ID 500 absent for 3 polls
and present afterwards, under a generous 1800-second deadline. -/
theorem await_idempotent_under_not_found_witness :
    (waitForServerProvisioning
        (fun i => GetServerByServiceID (if i < 3 then [] else [sampleServer]) 500)
        (fun _ => false) 0 1800).outcome = .provisioned sampleServer
    ∧ (waitForServerProvisioning (fun _ => GetServerByServiceID [sampleServer] 500)
        (fun _ => false) 0 1800).outcome = .provisioned sampleServer :=
  await_idempotent_under_not_found (fun i => if i < 3 then [] else [sampleServer])
    [sampleServer] 500 sampleServer 3 0 1800
    (fun i hi => by simp [hi, GetServerByServiceID])
    (fun i hi => by simp [Nat.not_lt.mpr hi])
    (by simp [GetServerByServiceID, sampleServer])
    (by decide)

/-- GetSSHKeyByLabel (client.go lines 522-535) with the credential list that
`GetSSHKeys` would have fetched passed in explicitly: the first credential
whose label equals the requested one, or none. -/
def GetSSHKeyByLabel : List SSHKey → String → Option SSHKey
  | [], _ => none
  | key :: rest, label =>
    if key.label == label then some key
    else GetSSHKeyByLabel rest label

theorem getSSHKeyByLabel_some (sshKeys : List SSHKey) (label : String) (k : SSHKey)
    (h : GetSSHKeyByLabel sshKeys label = some k) :
    k ∈ sshKeys ∧ k.label = label := by
  induction sshKeys with
  | nil => cases h
  | cons a rest ih =>
    unfold GetSSHKeyByLabel at h
    by_cases ha : (a.label == label) = true
    · simp [ha] at h
      subst h
      exact ⟨by simp, by simpa using ha⟩
    · simp [ha] at h
      rcases ih h with ⟨hm, hl⟩
      exact ⟨by simp [hm], hl⟩

theorem getSSHKeyByLabel_none (sshKeys : List SSHKey) (label : String) :
    GetSSHKeyByLabel sshKeys label = none ↔ ∀ k ∈ sshKeys, k.label ≠ label := by
  induction sshKeys with
  | nil => simp [GetSSHKeyByLabel]
  | cons a rest ih =>
    unfold GetSSHKeyByLabel
    by_cases ha : (a.label == label) = true
    · simp [ha]
      exact fun h => absurd (by simpa using ha) h
    · simp only [ha, if_neg, Bool.false_eq_true, not_false_iff, ite_false]
      rw [ih]
      constructor
      · intro h k hk
        rcases List.mem_cons.mp hk with hk | hk
        · subst hk; simpa using ha
        · exact h k hk
      · intro h k hk
        exact h k (by simp [hk])

/-- The OS scan of `BareMetalServerResource.Create` (part_003 lines 261-267):
first operating-system product whose name equals the requested one. -/
def findOperatingSystem : List OperatingSystemItem → String → Option OperatingSystemItem
  | [], _ => none
  | os :: rest, osName =>
    if os.name == osName then some os
    else findOperatingSystem rest osName

/-- The SSH-label resolution loop of `BareMetalServerResource.Create`
(part_003 lines 307-318): resolve each label in order through
GetSSHKeyByLabel, collecting the credential identifiers; the first label that
fails to resolve aborts with that label. -/
def resolveSSHKeyLabels (sshKeys : List SSHKey) : List String → Except String (List Int)
  | [] => .ok []
  | label :: rest =>
    match GetSSHKeyByLabel sshKeys label with
    | none => .error label
    | some key =>
      match resolveSSHKeyLabels sshKeys rest with
      | .error l => .error l
      | .ok ids => .ok (key.id :: ids)

theorem resolveSSHKeyLabels_ok (sshKeys : List SSHKey) :
    ∀ (labels : List String) (ids : List Int),
      resolveSSHKeyLabels sshKeys labels = .ok ids →
      List.Forall₂ (fun lab id => ∃ k ∈ sshKeys, k.label = lab ∧ k.id = id) labels ids := by
  intro labels
  induction labels with
  | nil =>
    intro ids h
    simp [resolveSSHKeyLabels] at h
    subst h
    exact List.Forall₂.nil
  | cons label rest ih =>
    intro ids h
    unfold resolveSSHKeyLabels at h
    cases hk : GetSSHKeyByLabel sshKeys label with
    | none => rw [hk] at h; cases h
    | some key =>
      rw [hk] at h
      cases hr : resolveSSHKeyLabels sshKeys rest with
      | error l => rw [hr] at h; cases h
      | ok ids2 =>
        rw [hr] at h
        simp at h
        subst h
        rcases getSSHKeyByLabel_some sshKeys label key hk with ⟨hm, hl⟩
        exact List.Forall₂.cons ⟨key, hm, hl, rfl⟩ (ih ids2 hr)

theorem resolveSSHKeyLabels_error_of_unresolved (sshKeys : List SSHKey) :
    ∀ labels : List String,
      (∃ lab ∈ labels, ∀ k ∈ sshKeys, k.label ≠ lab) →
      ∃ l, resolveSSHKeyLabels sshKeys labels = .error l := by
  intro labels
  induction labels with
  | nil => rintro ⟨lab, hmem, _⟩; cases hmem
  | cons label rest ih =>
    rintro ⟨lab, hmem, hno⟩
    unfold resolveSSHKeyLabels
    cases hk : GetSSHKeyByLabel sshKeys label with
    | none => exact ⟨label, rfl⟩
    | some key =>
      rcases List.mem_cons.mp hmem with hmem | hmem
      · subst hmem
        rcases getSSHKeyByLabel_some sshKeys lab key hk with ⟨hm, hl⟩
        exact absurd hl (hno key hm)
      · rcases ih ⟨lab, hmem, hno⟩ with ⟨l, hl⟩
        rw [hl]
        exact ⟨l, rfl⟩

/-- The environment of one run of `BareMetalServerResource.Create`
(part_003 lines 169-361): the snapshots/results the HTTP calls would
deliver. `.error ()` stands for a transport failure. -/
structure CreateEnv where
  inventory : List InventoryItem
  addons : Except Unit AddonsResponse
  sshKeys : List SSHKey
  orderResponse : Except Unit ServerOrderResponse

/-- The distinct failure exits of Create before provisioning starts, each
corresponding to one early `return` with an error diagnostic in part_003. -/
inductive CreateError where
  | invalidTypeLocation (instanceType location : String) (alternatives : Alternatives)
  | addonsUnavailable (instanceType location : String)
  | invalidOperatingSystem (osName : String)
  | sshKeyNotFound (label : String)
  | orderFailed
  | orderResponseEmpty
deriving DecidableEq, Repr

/-- A successfully submitted order: the request that was sent and the service
identifier extracted from the response and handed to the poller. -/
structure OrderSubmission where
  request : ServerOrderRequest
  serviceID : Int
deriving DecidableEq, Repr

/-- Result of Create up to the point where provisioning polling starts,
together with the number of OrderServer calls issued. -/
structure CreatePreProvision where
  result : Except CreateError OrderSubmission
  orderCalls : Nat

/-- `BareMetalServerResource.Create` (part_003 lines 169-361) up to the
`waitForServerProvisioning` call: validate the (type, location) pair against
inventory, computing the suggestion lists on failure; validate the operating
system against the addon catalog; resolve the SSH key labels (skipped when
the list is null, exactly as the `data.SSHKeyLabels.IsNull()` guard does);
build the order request with quantity 1 and hourly billing; submit it once;
and extract the first returned service identifier. -/
def serverCreateToProvisioning (env : CreateEnv) (instanceType location osName : String)
    (hostname : Option String) (sshKeyLabels : Option (List String)) : CreatePreProvision :=
  match FindSKUByProductName env.inventory instanceType location with
  | .error _ =>
    ⟨.error (.invalidTypeLocation instanceType location
        (findAvailableAlternatives env.inventory instanceType location)), 0⟩
  | .ok _sku =>
    match env.addons with
    | .error _ => ⟨.error (.addonsUnavailable instanceType location), 0⟩
    | .ok addons =>
      match findOperatingSystem addons.operatingSystems.products osName with
      | none => ⟨.error (.invalidOperatingSystem osName), 0⟩
      | some os =>
        match resolveSSHKeyLabels env.sshKeys (sshKeyLabels.getD []) with
        | .error label => ⟨.error (.sshKeyNotFound label), 0⟩
        | .ok sshKeyIDs =>
          let orderReq : ServerOrderRequest :=
            ⟨instanceType, 1, location, os.productCode, hostname.getD "", true, sshKeyIDs⟩
          match env.orderResponse with
          | .error _ => ⟨.error .orderFailed, 1⟩
          | .ok orderResp =>
            match orderResp.orderServiceIDs with
            | [] => ⟨.error .orderResponseEmpty, 1⟩
            | serviceID :: _ => ⟨.ok ⟨orderReq, serviceID⟩, 1⟩

/-- C7: every supplied SSH key label is resolved by exact-label lookup
against the credential list (each resolved identifier belongs to a
credential bearing exactly that label), and if any label fails to resolve
the Create operation stops with a hard error having issued zero
order-submission calls. -/
theorem create_ssh_labels_resolved_before_order :
    (∀ (sshKeys : List SSHKey) (labels : List String) (ids : List Int),
      resolveSSHKeyLabels sshKeys labels = .ok ids →
      List.Forall₂ (fun lab id => ∃ k ∈ sshKeys, k.label = lab ∧ k.id = id) labels ids)
    ∧ (∀ (env : CreateEnv) (instanceType location osName : String)
        (hostname : Option String) (labels : List String),
      (∃ lab ∈ labels, ∀ k ∈ env.sshKeys, k.label ≠ lab) →
      (serverCreateToProvisioning env instanceType location osName hostname
          (some labels)).orderCalls = 0
      ∧ ∃ e, (serverCreateToProvisioning env instanceType location osName hostname
          (some labels)).result = .error e) := by
  constructor
  · exact resolveSSHKeyLabels_ok
  · intro env instanceType location osName hostname labels hbad
    rcases resolveSSHKeyLabels_error_of_unresolved env.sshKeys labels hbad with ⟨l, hl⟩
    cases hF : FindSKUByProductName env.inventory instanceType location with
    | error e => simp [serverCreateToProvisioning, hF]
    | ok sku =>
      cases hA : env.addons with
      | error u => simp [serverCreateToProvisioning, hF, hA]
      | ok addons =>
        cases hO : findOperatingSystem addons.operatingSystems.products osName with
        | none => simp [serverCreateToProvisioning, hF, hA, hO]
        | some os => simp [serverCreateToProvisioning, hF, hA, hO, hl]

/-- Witness for C7: resolving the single label "deploy" against an empty
credential list issues no order and fails. -/
theorem create_ssh_labels_resolved_before_order_witness :
    (serverCreateToProvisioning (CreateEnv.mk [] (.error ()) [] (.error ()))
        "c1.small" "NYC1" "Ubuntu 24.04" none (some ["deploy"])).orderCalls = 0
    ∧ ∃ e, (serverCreateToProvisioning (CreateEnv.mk [] (.error ()) [] (.error ()))
        "c1.small" "NYC1" "Ubuntu 24.04" none (some ["deploy"])).result = .error e :=
  create_ssh_labels_resolved_before_order.2 (CreateEnv.mk [] (.error ()) [] (.error ()))
    "c1.small" "NYC1" "Ubuntu 24.04" none ["deploy"]
    ⟨"deploy", by simp, by simp⟩

/-- C8: the order-submission call is issued at most once per Create; when it
was issued and the response carried an empty service-identifier sequence the
run fails hard with the empty-response error (it is not retried or
resubmitted); and every run that reaches provisioning did so after exactly
one submission, with the service identifier equal to the first entry of the
returned sequence. -/
theorem create_order_submitted_once_first_id :
    (∀ (env : CreateEnv) (instanceType location osName : String)
        (hostname : Option String) (sshKeyLabels : Option (List String)),
      (serverCreateToProvisioning env instanceType location osName hostname
          sshKeyLabels).orderCalls ≤ 1)
    ∧ (∀ (env : CreateEnv) (instanceType location osName : String)
        (hostname : Option String) (sshKeyLabels : Option (List String))
        (resp : ServerOrderResponse),
      env.orderResponse = .ok resp → resp.orderServiceIDs = [] →
      (serverCreateToProvisioning env instanceType location osName hostname
          sshKeyLabels).orderCalls = 1 →
      (serverCreateToProvisioning env instanceType location osName hostname
          sshKeyLabels).result = .error .orderResponseEmpty)
    ∧ (∀ (env : CreateEnv) (instanceType location osName : String)
        (hostname : Option String) (sshKeyLabels : Option (List String))
        (sub : OrderSubmission),
      (serverCreateToProvisioning env instanceType location osName hostname
          sshKeyLabels).result = .ok sub →
      (serverCreateToProvisioning env instanceType location osName hostname
          sshKeyLabels).orderCalls = 1
      ∧ ∃ resp rest, env.orderResponse = .ok resp ∧
          resp.orderServiceIDs = sub.serviceID :: rest) := by
  refine ⟨?_, ?_, ?_⟩
  · intro env instanceType location osName hostname sshKeyLabels
    cases hF : FindSKUByProductName env.inventory instanceType location with
    | error e => simp [serverCreateToProvisioning, hF]
    | ok sku =>
      cases hA : env.addons with
      | error u => simp [serverCreateToProvisioning, hF, hA]
      | ok addons =>
        cases hO : findOperatingSystem addons.operatingSystems.products osName with
        | none => simp [serverCreateToProvisioning, hF, hA, hO]
        | some os =>
          cases hR : resolveSSHKeyLabels env.sshKeys (sshKeyLabels.getD []) with
          | error l => simp [serverCreateToProvisioning, hF, hA, hO, hR]
          | ok ids =>
            cases hOR : env.orderResponse with
            | error u => simp [serverCreateToProvisioning, hF, hA, hO, hR, hOR]
            | ok resp =>
              cases hids : resp.orderServiceIDs with
              | nil => simp [serverCreateToProvisioning, hF, hA, hO, hR, hOR, hids]
              | cons sid rest =>
                simp [serverCreateToProvisioning, hF, hA, hO, hR, hOR, hids]
  · intro env instanceType location osName hostname sshKeyLabels resp hOR hempty hone
    cases hF : FindSKUByProductName env.inventory instanceType location with
    | error e => simp [serverCreateToProvisioning, hF] at hone
    | ok sku =>
      cases hA : env.addons with
      | error u => simp [serverCreateToProvisioning, hF, hA] at hone
      | ok addons =>
        cases hO : findOperatingSystem addons.operatingSystems.products osName with
        | none => simp [serverCreateToProvisioning, hF, hA, hO] at hone
        | some os =>
          cases hR : resolveSSHKeyLabels env.sshKeys (sshKeyLabels.getD []) with
          | error l => simp [serverCreateToProvisioning, hF, hA, hO, hR] at hone
          | ok ids =>
            simp [serverCreateToProvisioning, hF, hA, hO, hR, hOR, hempty]
  · intro env instanceType location osName hostname sshKeyLabels sub hok
    cases hF : FindSKUByProductName env.inventory instanceType location with
    | error e => simp [serverCreateToProvisioning, hF] at hok
    | ok sku =>
      cases hA : env.addons with
      | error u => simp [serverCreateToProvisioning, hF, hA] at hok
      | ok addons =>
        cases hO : findOperatingSystem addons.operatingSystems.products osName with
        | none => simp [serverCreateToProvisioning, hF, hA, hO] at hok
        | some os =>
          cases hR : resolveSSHKeyLabels env.sshKeys (sshKeyLabels.getD []) with
          | error l => simp [serverCreateToProvisioning, hF, hA, hO, hR] at hok
          | ok ids =>
            cases hOR : env.orderResponse with
            | error u => simp [serverCreateToProvisioning, hF, hA, hO, hR, hOR] at hok
            | ok resp =>
              cases hids : resp.orderServiceIDs with
              | nil => simp [serverCreateToProvisioning, hF, hA, hO, hR, hOR, hids] at hok
              | cons sid rest =>
                simp [serverCreateToProvisioning, hF, hA, hO, hR, hOR, hids] at hok
                refine ⟨by simp [serverCreateToProvisioning, hF, hA, hO, hR, hOR, hids],
                  resp, rest, rfl, ?_⟩
                rw [hids, ← hok]

/-- SSHKeyResourceModel embeds the Terraform model of the credential resource
(ssh_key_resource.go lines 30-36); a null value is `none`. -/
structure SSHKeyResourceModel where
  id : Option Int
  label : Option String
  publicKey : Option String
  createdAt : Option Int
  updatedAt : Option Int
deriving DecidableEq, Repr

/-- updateModelFromSSHKey (ssh_key_resource.go lines 232-238): every model
field is overwritten from the fetched credential. -/
def updateModelFromSSHKey (data : SSHKeyResourceModel) (sshKey : SSHKey) :
    SSHKeyResourceModel :=
  { data with
    id := some sshKey.id
    label := some sshKey.label
    publicKey := some sshKey.key
    createdAt := some sshKey.createdAt
    updatedAt := some sshKey.updatedAt }

/-- The two failure exits of SSHKeyResource.Create. -/
inductive SSHKeyCreateError where
  | creationFailed
  | retrievalFailed (label : String)
deriving DecidableEq, Repr

/-- Result of SSHKeyResource.Create together with whether the follow-up
lookup by label was performed. -/
structure SSHKeyCreateRun where
  result : Except SSHKeyCreateError SSHKeyResourceModel
  lookupPerformed : Bool

/-- SSHKeyResource.Create (ssh_key_resource.go lines 101-148): the plan model
carries the label and public key; `createResult` is what CreateSSHKey
returned; `keysAfterCreate` is the credential list the follow-up GetSSHKeys
fetch delivers. On creation success the label is looked up and the model is
rebuilt from the fetched credential. -/
def sshKeyCreate (createResult : Except Unit SSHKeyCreateResponse)
    (keysAfterCreate : List SSHKey) (label publicKey : String) : SSHKeyCreateRun :=
  match createResult with
  | .error _ => ⟨.error .creationFailed, false⟩
  | .ok _ =>
    match GetSSHKeyByLabel keysAfterCreate label with
    | none => ⟨.error (.retrievalFailed label), true⟩
    | some sshKey =>
      ⟨.ok (updateModelFromSSHKey ⟨none, some label, some publicKey, none, none⟩ sshKey),
       true⟩

/-- C9 counterexample: when the backend list already holds a credential with
the requested label but different key material, the record stored by Create
carries the fetched key material, not the input key, so the stored public
key does not equal the input. -/
theorem sshkey_create_stores_fetched_key :
    (sshKeyCreate (.ok ⟨7⟩) [⟨7, "deploy", "ssh-rsa BBBB", 100, 100, []⟩]
        "deploy" "ssh-rsa AAAA").result =
      .ok ⟨some 7, some "deploy", some "ssh-rsa BBBB", some 100, some 100⟩
    ∧ ("ssh-rsa BBBB" : String) ≠ "ssh-rsa AAAA" :=
  ⟨rfl, by decide⟩

/-- C9 (amended): Create performs the follow-up lookup exactly when the
creation call succeeded, fails hard when the just-created label cannot be
found, and on success stores a record whose label equals the input label and
whose public key equals the key material of the first credential bearing
that label — equal to the input key whenever every credential in the fetched
list bearing that label carries the input material. -/
theorem sshkey_create_lookup_mandatory (createResult : Except Unit SSHKeyCreateResponse)
    (keysAfterCreate : List SSHKey) (label publicKey : String) :
    ((sshKeyCreate createResult keysAfterCreate label publicKey).lookupPerformed = true ↔
      createResult.isOk = true)
    ∧ (GetSSHKeyByLabel keysAfterCreate label = none →
        ∀ r, createResult = .ok r →
        (sshKeyCreate createResult keysAfterCreate label publicKey).result =
          .error (.retrievalFailed label))
    ∧ (∀ m, (sshKeyCreate createResult keysAfterCreate label publicKey).result = .ok m →
        m.label = some label
        ∧ ∃ k, GetSSHKeyByLabel keysAfterCreate label = some k ∧ k.label = label
            ∧ m.publicKey = some k.key
            ∧ ((∀ k2 ∈ keysAfterCreate, k2.label = label → k2.key = publicKey) →
                m.publicKey = some publicKey)) := by
  refine ⟨?_, ?_, ?_⟩
  · cases createResult with
    | error u => simp [sshKeyCreate, Except.isOk, Except.toBool]
    | ok r =>
      cases hk : GetSSHKeyByLabel keysAfterCreate label with
      | none => simp [sshKeyCreate, hk, Except.isOk, Except.toBool]
      | some k => simp [sshKeyCreate, hk, Except.isOk, Except.toBool]
  · intro hnone r hr
    subst hr
    simp [sshKeyCreate, hnone]
  · intro m hm
    cases createResult with
    | error u => simp [sshKeyCreate] at hm
    | ok r =>
      cases hk : GetSSHKeyByLabel keysAfterCreate label with
      | none => simp [sshKeyCreate, hk] at hm
      | some k =>
        simp [sshKeyCreate, hk] at hm
        rcases getSSHKeyByLabel_some keysAfterCreate label k hk with ⟨hmem, hlab⟩
        subst hm
        refine ⟨by simp [updateModelFromSSHKey, hlab], k, rfl, hlab, ?_, ?_⟩
        · simp [updateModelFromSSHKey]
        · intro hall
          simp [updateModelFromSSHKey, hall k hmem hlab]

/-- Witness for the amended C9: when the lookup after creation finds nothing,
Create fails with the retrieval error. -/
theorem sshkey_create_lookup_mandatory_witness :
    (sshKeyCreate (.ok ⟨7⟩) [] "deploy" "ssh-rsa AAAA").result =
      .error (.retrievalFailed "deploy") :=
  (sshkey_create_lookup_mandatory (.ok ⟨7⟩) [] "deploy" "ssh-rsa AAAA").2.1 rfl ⟨7⟩ rfl

/-- BareMetalServerResourceModel embeds the Terraform model of the server
resource (part_003 lines 33-52); a null value is `none`. -/
structure BareMetalServerResourceModel where
  id : Option String
  instanceType : Option String
  location : Option String
  operatingSystem : Option String
  hostname : Option String
  friendlyName : Option String
  sshKeyLabels : Option (List String)
  serviceID : Option Int
  publicIP : Option String
  rootPassword : Option String
  serviceDescription : Option String
  planID : Option Int
  datacenterName : Option String
  datacenterID : Option Int
  locationID : Option Int
  serverType : Option String
deriving DecidableEq, Repr

/-- updateModelFromServer (part_003 lines 541-559): overwrite the computed
fields from the fetched server; copy hostname and friendly name from the
server only when the model holds null and the fetched value is non-empty;
leave every other field untouched. -/
def updateModelFromServer (data : BareMetalServerResourceModel) (server : Server) :
    BareMetalServerResourceModel :=
  { data with
    id := some server.id
    serviceID := some server.serviceID
    publicIP := some server.publicIP
    rootPassword := some server.rootPassword
    serviceDescription := some server.serviceDescription
    planID := some server.planID
    datacenterName := some server.datacenterName
    datacenterID := some server.datacenterID
    locationID := some server.locationID
    serverType := some server.serverType
    hostname :=
      if data.hostname.isNone && server.hostname != "" then some server.hostname
      else data.hostname
    friendlyName :=
      if data.friendlyName.isNone && server.friendlyName != "" then some server.friendlyName
      else data.friendlyName }

/-- C10: updating the resource model from a fetched server record never
modifies instance type, location, operating system or the ssh key labels,
overwrites exactly the computed fields from the record, and writes hostname
and friendly name only when the model held null and the fetched value is
non-empty. -/
theorem update_model_frame (data : BareMetalServerResourceModel) (server : Server) :
    (updateModelFromServer data server).instanceType = data.instanceType
    ∧ (updateModelFromServer data server).location = data.location
    ∧ (updateModelFromServer data server).operatingSystem = data.operatingSystem
    ∧ (updateModelFromServer data server).sshKeyLabels = data.sshKeyLabels
    ∧ (updateModelFromServer data server).id = some server.id
    ∧ (updateModelFromServer data server).serviceID = some server.serviceID
    ∧ (updateModelFromServer data server).publicIP = some server.publicIP
    ∧ (updateModelFromServer data server).rootPassword = some server.rootPassword
    ∧ (updateModelFromServer data server).serviceDescription = some server.serviceDescription
    ∧ (updateModelFromServer data server).planID = some server.planID
    ∧ (updateModelFromServer data server).datacenterName = some server.datacenterName
    ∧ (updateModelFromServer data server).datacenterID = some server.datacenterID
    ∧ (updateModelFromServer data server).locationID = some server.locationID
    ∧ (updateModelFromServer data server).serverType = some server.serverType
    ∧ (data.hostname = none → server.hostname ≠ "" →
        (updateModelFromServer data server).hostname = some server.hostname)
    ∧ (data.hostname ≠ none →
        (updateModelFromServer data server).hostname = data.hostname)
    ∧ (server.hostname = "" →
        (updateModelFromServer data server).hostname = data.hostname)
    ∧ (data.friendlyName = none → server.friendlyName ≠ "" →
        (updateModelFromServer data server).friendlyName = some server.friendlyName)
    ∧ (data.friendlyName ≠ none →
        (updateModelFromServer data server).friendlyName = data.friendlyName)
    ∧ (server.friendlyName = "" →
        (updateModelFromServer data server).friendlyName = data.friendlyName) := by
  refine ⟨rfl, rfl, rfl, rfl, rfl, rfl, rfl, rfl, rfl, rfl, rfl, rfl, rfl, rfl,
    ?_, ?_, ?_, ?_, ?_, ?_⟩
  · intro h1 h2
    simp [updateModelFromServer, h1, h2]
  · intro h1
    simp [updateModelFromServer, Option.isNone_iff_eq_none, h1]
  · intro h1
    simp [updateModelFromServer, h1]
  · intro h1 h2
    simp [updateModelFromServer, h1, h2]
  · intro h1
    simp [updateModelFromServer, Option.isNone_iff_eq_none, h1]
  · intro h1
    simp [updateModelFromServer, h1]

/-- The all-null model, as freshly allocated during ImportState. -/
def emptyServerModel : BareMetalServerResourceModel :=
  ⟨none, none, none, none, none, none, none, none, none, none, none, none, none,
   none, none, none⟩

/-- Witness for C10: on the all-null model and the sample server, the fetched
non-empty hostname is copied in. -/
theorem update_model_frame_witness :
    (updateModelFromServer emptyServerModel sampleServer).hostname =
      some sampleServer.hostname :=
  (update_model_frame emptyServerModel
      sampleServer).2.2.2.2.2.2.2.2.2.2.2.2.2.2.1 rfl (by decide)

/-- A create environment in which every step succeeds: one qualifying
inventory entry, one operating system, no ssh labels, and an order response
carrying two service identifiers. -/
def sampleCreateEnv : CreateEnv :=
  ⟨[InventoryItem.mk 10 3 3 1 1 "NYC1" "c1.small" "In Stock"],
   .ok ⟨⟨"Operating Systems", "true",
         [OperatingSystemItem.mk "Ubuntu 24.04" "linux" "UBUNTU_24_04" true]⟩,
        ⟨"Licenses", []⟩, ⟨"Support Levels", []⟩⟩,
   [],
   .ok ⟨[500, 501]⟩⟩

/-- Witness for C8 on a fully successful run: exactly one submission, and the
service identifier handed to the poller is the first returned entry, 500. -/
theorem create_order_submitted_once_first_id_witness :
    (serverCreateToProvisioning sampleCreateEnv "c1.small" "NYC1" "Ubuntu 24.04"
        none none).orderCalls = 1
    ∧ ∃ resp rest, sampleCreateEnv.orderResponse = .ok resp ∧
        resp.orderServiceIDs =
          (OrderSubmission.mk ⟨"c1.small", 1, "NYC1", "UBUNTU_24_04", "", true, []⟩
            500).serviceID :: rest :=
  create_order_submitted_once_first_id.2.2 sampleCreateEnv "c1.small" "NYC1"
    "Ubuntu 24.04" none none
    (OrderSubmission.mk ⟨"c1.small", 1, "NYC1", "UBUNTU_24_04", "", true, []⟩ 500) rfl

end ICS
